import Mathlib

set_option maxRecDepth 100000

/-
Verification of the persistence/query layer of the household expense tracker
(server/models/Transaction.js, server/models/Category.js, server/config/database.js,
server/index.js, server/scripts/migrate.js).

Modelling conventions:
- a database table is a list of row records, in insertion (rowid) order;
- SQL numeric values (REAL / DECIMAL) are idealised as rationals;
- SQLite TEXT comparison uses the BINARY collation, i.e. byte order of the
  UTF-8 encoding, which coincides with lexicographic order on code points;
  we implement that order directly on character lists;
- created_at / updated_at timestamps are abstract clock values (Nat);
- parameterised queries are modelled by evaluating the query's row predicate
  against the store; where a bug depends on the literal SQL text the code
  concatenates (getStatistics), the generated strings themselves are embedded.
-/

/- ===== character / string helpers ===== -/

/-- Lexicographic strict order on code-point lists; this is exactly the order
SQLite's BINARY collation gives TEXT values (UTF-8 byte order coincides with
code-point order). -/
def charListLt : List Char → List Char → Bool
  | [], [] => false
  | [], _ :: _ => true
  | _ :: _, [] => false
  | a :: as, b :: bs =>
      decide (a.toNat < b.toNat) || (decide (a.toNat = b.toNat) && charListLt as bs)

def stringLtB (s t : String) : Bool := charListLt s.data t.data

/-- Total order companion: s <= t iff not (t < s). -/
def stringLeB (s t : String) : Bool := !(stringLtB t s)

/-- Does the character list start with the given pattern. -/
def charsStartWith : List Char → List Char → Bool
  | _, [] => true
  | [], _ :: _ => false
  | c :: cs, p :: ps => decide (c = p) && charsStartWith cs ps

/-- Number of occurrences of a pattern inside a character list. -/
def countOccur (pat : List Char) : List Char → Nat
  | [] => 0
  | c :: cs => (if charsStartWith (c :: cs) pat = true then 1 else 0) + countOccur pat cs

/- ===== rows ===== -/

/-- One row of the transactions table (scripts/migrate.js: id INTEGER PRIMARY
KEY, type, amount, description, category, date, created_at, updated_at). -/
structure TransactionRow where
  id : Nat
  type : String
  amount : Rat
  description : String
  category : String
  date : String
  created_at : Nat
  updated_at : Nat
deriving DecidableEq

/-- One row of the categories table (scripts/migrate.js: id, name UNIQUE,
type, description, color, icon, created_at, updated_at; the last three data
columns are nullable). -/
structure CategoryRow where
  id : Nat
  name : String
  type : String
  description : Option String
  color : Option String
  icon : Option String
  created_at : Nat
  updated_at : Nat
deriving DecidableEq

/- ===== ORDER BY date DESC, created_at DESC ===== -/

/-- Row order produced by ORDER BY date DESC, created_at DESC
(Transaction.getAll): a comes before b iff a's date is later, or dates are
equal and a's creation time is not earlier. -/
def txLe (a b : TransactionRow) : Bool :=
  stringLtB b.date a.date ||
    ((b.date.data == a.date.data) && decide (b.created_at ≤ a.created_at))

def txOrd (a b : TransactionRow) : Prop := txLe a b = true

instance : DecidableRel txOrd := fun a b => inferInstanceAs (Decidable (txLe a b = true))

/- ===== Transaction.getAll (filters + ORDER BY + LIMIT) ===== -/

/-- Filter object accepted by Transaction.getAll; the route fills it from the
query string (undefined fields become none; limit is parseInt of the query
value, modelled for non-negative values). -/
structure TransactionFilters where
  type : Option String := none
  category : Option String := none
  startDate : Option String := none
  endDate : Option String := none
  limit : Option Nat := none
deriving DecidableEq

/-- One `if (filters.x)` block of Transaction.getAll: a condition is appended
to the WHERE clause only when the value is truthy in JS (undefined and the
empty string are falsy). -/
def optCond (v : Option String) (mk : String → TransactionRow → Bool) :
    List (TransactionRow → Bool) :=
  match v with
  | none => []
  | some s => if s.data = [] then [] else [mk s]

/-- The conjunction of conditions Transaction.getAll appends to
`SELECT * FROM transactions WHERE 1=1`, in source order:
type, category, date >= startDate, date <= endDate. -/
def Transaction.getAllConds (f : TransactionFilters) : List (TransactionRow → Bool) :=
  optCond f.type (fun t r => r.type.data == t.data) ++
  optCond f.category (fun c r => r.category.data == c.data) ++
  optCond f.startDate (fun s r => stringLeB s r.date) ++
  optCond f.endDate (fun e r => stringLeB r.date e)

/-- Transaction.getAll: WHERE the appended conditions, ORDER BY date DESC,
created_at DESC, then LIMIT when `filters.limit` is truthy (a 0 limit is
falsy in JS, so no LIMIT clause is emitted for it). -/
def Transaction.getAll (store : List TransactionRow) (f : TransactionFilters) :
    List TransactionRow :=
  let matched := store.filter (fun r => (Transaction.getAllConds f).all (fun c => c r))
  let ordered := matched.insertionSort txOrd
  match f.limit with
  | none => ordered
  | some n => if n = 0 then ordered else ordered.take n

/-- Specification-side reading of "all supplied filters, AND-combined", for
comparison with the query Transaction.getAll builds. A supplied value that is
falsy in JS (the empty string) imposes no condition, matching the source's
`if (filters.x)` guards. -/
def optFilterHolds (v : Option String) (test : String → Bool) : Bool :=
  match v with
  | none => true
  | some s => if s.data = [] then true else test s

def matchesFilters (f : TransactionFilters) (r : TransactionRow) : Bool :=
  optFilterHolds f.type (fun t => r.type.data == t.data) &&
  optFilterHolds f.category (fun c => r.category.data == c.data) &&
  optFilterHolds f.startDate (fun s => stringLeB s r.date) &&
  optFilterHolds f.endDate (fun e => stringLeB r.date e)

/- ===== Joi validation schema for transactions ===== -/

/-- Candidate payload for Transaction.create / Transaction.update, with the
values already carrying the types Joi coerces to (amount numeric, date an ISO
day). -/
structure TransactionCandidate where
  type : String
  amount : Rat
  description : String
  category : String
  date : String
deriving DecidableEq

def isDigitChar (c : Char) : Bool := decide (48 ≤ c.toNat) && decide (c.toNat ≤ 57)

def twoDigitValue : List Char → Nat
  | [a, b] => (a.toNat - 48) * 10 + (b.toNat - 48)
  | _ => 0

/-- Calendar-date check for the YYYY-MM-DD form accepted by Joi.date().iso():
four year digits, two month digits in 01..12, two day digits in 01..31. -/
def isIsoDate (s : String) : Bool :=
  match s.data with
  | [y1, y2, y3, y4, h1, m1, m2, h2, d1, d2] =>
      isDigitChar y1 && isDigitChar y2 && isDigitChar y3 && isDigitChar y4 &&
      decide (h1 = '-') && decide (h2 = '-') &&
      isDigitChar m1 && isDigitChar m2 && isDigitChar d1 && isDigitChar d2 &&
      decide (1 ≤ twoDigitValue [m1, m2]) && decide (twoDigitValue [m1, m2] ≤ 12) &&
      decide (1 ≤ twoDigitValue [d1, d2]) && decide (twoDigitValue [d1, d2] ≤ 31)
  | _ => false

/-- Field-rule violations collected by the Joi transaction schema with
abortEarly false, in schema order (type, amount, description, category, date),
with the source's custom messages. Joi's precision(2) rounds an over-precise
amount under the default convert mode instead of adding a message, so it
contributes no entry here; the round-trip theorem below is stated for
candidates whose amount already has at most 2 decimal places, for which that
rounding is the identity. -/
def Transaction.validationErrors (c : TransactionCandidate) : List String :=
  (if c.type = "income" ∨ c.type = "expense" then []
   else ["El tipo debe ser \x22income\x22 o \x22expense\x22"]) ++
  (if 0 < c.amount then [] else ["El monto debe ser mayor a 0"]) ++
  (if 1 ≤ c.description.length ∧ c.description.length ≤ 255 then []
   else ["La descripción no puede estar vacía o exceder 255 caracteres"]) ++
  (if 1 ≤ c.category.length ∧ c.category.length ≤ 100 then []
   else ["La categoría no puede estar vacía o exceder 100 caracteres"]) ++
  (if isIsoDate c.date = true then []
   else ["La fecha debe estar en formato ISO (YYYY-MM-DD)"])

def joinComma : List String → String
  | [] => ""
  | [m] => m
  | m :: ms => m ++ ", " ++ joinComma ms

/-- Transaction.validate: either the (coerced) value, or a ValidationError
whose message joins every collected detail with a comma. -/
def Transaction.validate (c : TransactionCandidate) :
    Except String TransactionCandidate :=
  match Transaction.validationErrors c with
  | [] => .ok c
  | msgs => .error (joinComma msgs)

/- ===== Transaction.getById / create / update / delete ===== -/

/-- Transaction.getById: SELECT * FROM transactions WHERE id = ?, then the
first row if any, else null. -/
def Transaction.getById (store : List TransactionRow) (id : Nat) :
    Option TransactionRow :=
  store.find? (fun r => r.id == id)

/-- Transaction.create on the SQLite branch: validate, INSERT the five fields
(created_at and updated_at are filled by the schema's DEFAULT
CURRENT_TIMESTAMP), then return getById(result.lastID). `nextId` is the
autoincrement id the insert receives, `now` the clock value. -/
def Transaction.createSqlite (store : List TransactionRow) (nextId now : Nat)
    (c : TransactionCandidate) :
    Except String (Option TransactionRow) × List TransactionRow :=
  match Transaction.validate c with
  | .error m => (.error m, store)
  | .ok v =>
    let row : TransactionRow :=
      { id := nextId, type := v.type, amount := v.amount,
        description := v.description, category := v.category, date := v.date,
        created_at := now, updated_at := now }
    (.ok (Transaction.getById (store ++ [row]) nextId), store ++ [row])

/-- Transaction.create on the PostgreSQL branch: validate, INSERT ... VALUES
(..., NOW()) RETURNING *, and return the row the insert produced. -/
def Transaction.createPg (store : List TransactionRow) (nextId now : Nat)
    (c : TransactionCandidate) :
    Except String (Option TransactionRow) × List TransactionRow :=
  match Transaction.validate c with
  | .error m => (.error m, store)
  | .ok v =>
    let row : TransactionRow :=
      { id := nextId, type := v.type, amount := v.amount,
        description := v.description, category := v.category, date := v.date,
        created_at := now, updated_at := now }
    (.ok (some row), store ++ [row])

/-- Transaction.update on the SQLite branch: validate, then
UPDATE transactions SET type, amount, description, category, date WHERE id = ?
(the SET list omits updated_at, and migrate.js installs no SQLite update
trigger, so both timestamps keep their stored values); error when no row
matched, else return getById(id). -/
def Transaction.updateSqlite (store : List TransactionRow) (id : Nat)
    (c : TransactionCandidate) :
    Except String (Option TransactionRow) × List TransactionRow :=
  match Transaction.validate c with
  | .error m => (.error m, store)
  | .ok v =>
    let store2 := store.map (fun r =>
      if r.id = id then
        { r with type := v.type, amount := v.amount, description := v.description,
                 category := v.category, date := v.date }
      else r)
    if store.countP (fun r => r.id == id) = 0 then
      (.error "Transacción no encontrada", store2)
    else
      (.ok (Transaction.getById store2 id), store2)

/-- Transaction.update on the PostgreSQL branch: the SET list additionally
assigns updated_at = NOW(), and the updated row comes back via RETURNING *. -/
def Transaction.updatePg (store : List TransactionRow) (id now : Nat)
    (c : TransactionCandidate) :
    Except String (Option TransactionRow) × List TransactionRow :=
  match Transaction.validate c with
  | .error m => (.error m, store)
  | .ok v =>
    let store2 := store.map (fun r =>
      if r.id = id then
        { r with type := v.type, amount := v.amount, description := v.description,
                 category := v.category, date := v.date, updated_at := now }
      else r)
    match store2.find? (fun r => r.id == id) with
    | none => (.error "Transacción no encontrada", store2)
    | some r => (.ok (some r), store2)

/-- Transaction.delete on the SQLite branch: DELETE FROM transactions WHERE
id = ?, result is whether result.changes > 0. -/
def Transaction.deleteSqlite (store : List TransactionRow) (id : Nat) :
    Bool × List TransactionRow :=
  (decide (0 < store.countP (fun r => r.id == id)),
   store.filter (fun r => !(r.id == id)))

/-- Transaction.delete on the PostgreSQL branch: DELETE ... RETURNING *,
result is whether any row came back. -/
def Transaction.deletePg (store : List TransactionRow) (id : Nat) :
    Bool × List TransactionRow :=
  (decide (0 < (store.filter (fun r => r.id == id)).length),
   store.filter (fun r => !(r.id == id)))

/- ===== Transaction.getStatistics ===== -/

/-- JS truthiness of an optional string value: undefined and the empty string
are falsy. -/
def optStringTruthy : Option String → Bool
  | none => false
  | some s => !(decide (s.data = []))

/-- The dateFilter string getStatistics builds (SQLite placeholders shown; the
PostgreSQL branch differs only in writing numbered placeholders): when both
startDate and endDate are truthy it is a second WHERE clause, otherwise
empty. -/
def statDateFilter (hasRange : Bool) : String :=
  if hasRange then " WHERE date BETWEEN ? AND ?" else ""

/-- The four aggregate query strings getStatistics concatenates, each of which
already contains `WHERE type = ...` before dateFilter is appended. -/
def totalIncomeQuery (df : String) : String :=
  "SELECT COALESCE(SUM(amount), 0) as total_income FROM transactions WHERE type = \x27income\x27" ++ df

def totalExpensesQuery (df : String) : String :=
  "SELECT COALESCE(SUM(amount), 0) as total_expenses FROM transactions WHERE type = \x27expense\x27" ++ df

def expensesByCategoryQuery (df : String) : String :=
  "SELECT category, SUM(amount) as total FROM transactions WHERE type = \x27expense\x27" ++ df ++
    " GROUP BY category ORDER BY total DESC"

def incomeByCategoryQuery (df : String) : String :=
  "SELECT category, SUM(amount) as total FROM transactions WHERE type = \x27income\x27" ++ df ++
    " GROUP BY category ORDER BY total DESC"

def whereClauseCount (q : String) : Nat := countOccur " WHERE ".data q.data

/-- The grammar of a SELECT statement admits at most one WHERE clause; both
SQLite and PostgreSQL reject a statement containing a second one as a syntax
error, so the engine only accepts a query whose text has at most one
occurrence of the WHERE keyword. -/
def sqlSelectAccepted (q : String) : Bool := decide (whereClauseCount q ≤ 1)

structure CategoryTotal where
  category : String
  total : Rat
deriving DecidableEq

/-- GROUP BY category ORDER BY total DESC: entries with larger totals first. -/
def catTotalLe (a b : CategoryTotal) : Prop := b.total ≤ a.total

instance : DecidableRel catTotalLe := fun a b => inferInstanceAs (Decidable (b.total ≤ a.total))

def sumAmounts (rows : List TransactionRow) : Rat := (rows.map (fun r => r.amount)).sum

/-- SELECT category, SUM(amount) GROUP BY category ORDER BY total DESC over
the given rows. -/
def categoryBreakdown (rows : List TransactionRow) : List CategoryTotal :=
  let cats := (rows.map (fun r => r.category)).dedup
  (cats.map (fun ct =>
    { category := ct,
      total := sumAmounts (rows.filter (fun r => r.category.data == ct.data)) })).insertionSort
    catTotalLe

structure Statistics where
  totalIncome : Rat
  totalExpenses : Rat
  balance : Rat
  expensesByCategory : List CategoryTotal
  incomeByCategory : List CategoryTotal
deriving DecidableEq

structure StatisticsFilters where
  startDate : Option String := none
  endDate : Option String := none
deriving DecidableEq

/-- Transaction.getStatistics: when both date bounds are truthy the built
dateFilter is appended to all four queries; if every generated statement is
syntactically acceptable the aggregates are computed (COALESCE/parseFloat give
0 on empty sums), otherwise the query failure is caught and rethrown as the
generic statistics error. -/
def Transaction.getStatistics (store : List TransactionRow)
    (f : StatisticsFilters) : Except String Statistics :=
  let hasRange := optStringTruthy f.startDate && optStringTruthy f.endDate
  let df := statDateFilter hasRange
  let queries := [totalIncomeQuery df, totalExpensesQuery df,
                  expensesByCategoryQuery df, incomeByCategoryQuery df]
  if queries.all sqlSelectAccepted then
    let s := f.startDate.getD ""
    let e := f.endDate.getD ""
    let inRange : TransactionRow → Bool := fun r =>
      !hasRange || (stringLeB s r.date && stringLeB r.date e)
    let income := store.filter (fun r => r.type.data == "income".data && inRange r)
    let expense := store.filter (fun r => r.type.data == "expense".data && inRange r)
    let totalIncome := sumAmounts income
    let totalExpenses := sumAmounts expense
    .ok { totalIncome := totalIncome, totalExpenses := totalExpenses,
          balance := totalIncome - totalExpenses,
          expensesByCategory := categoryBreakdown expense,
          incomeByCategory := categoryBreakdown income }
  else
    .error "Error al obtener las estadísticas"

/- ===== Transaction.getMonthlyData ===== -/

/-- SQLite runtime values relevant here, tagged by storage class. -/
inductive SqlValue where
  | intV (n : Int)
  | textV (s : String)
  | nullV
deriving DecidableEq

/-- SQLite equality comparison between values without column affinity:
operands of different storage classes are never equal (every INTEGER sorts
before every TEXT), and a NULL comparison is not true. -/
def sqliteValueEq : SqlValue → SqlValue → Bool
  | .intV a, .intV b => a == b
  | .textV a, .textV b => a.data == b.data
  | _, _ => false

/-- strftime of the year digits: the TEXT year of a parseable date, NULL
otherwise. -/
def sqliteStrftimeY (d : String) : SqlValue :=
  if isIsoDate d = true then .textV (String.mk (d.data.take 4)) else .nullV

/-- CAST(strftime of the month AS INTEGER) for a YYYY-MM-DD date string. -/
def sqliteMonthOf (d : String) : Int := (twoDigitValue ((d.data.drop 5).take 2) : Int)

/-- EXTRACT(MONTH FROM date) on the PostgreSQL branch, same month value. -/
def pgMonthOf (d : String) : Int := sqliteMonthOf d

def fourDigitValue : List Char → Nat
  | [a, b, c, d] =>
      ((a.toNat - 48) * 10 + (b.toNat - 48)) * 100 +
        ((c.toNat - 48) * 10 + (d.toNat - 48))
  | _ => 0

/-- EXTRACT(YEAR FROM date) on the PostgreSQL branch. -/
def pgYearOf (d : String) : Int := (fourDigitValue (d.data.take 4) : Int)

structure MonthlyEntry where
  month : Int
  type : String
  total : Rat
deriving DecidableEq

/-- ORDER BY month, type (both ascending). -/
def monthlyLe (a b : MonthlyEntry) : Prop :=
  a.month < b.month ∨ (a.month = b.month ∧ stringLtB b.type a.type = false)

instance : DecidableRel monthlyLe := fun a b =>
  inferInstanceAs (Decidable (a.month < b.month ∨ (a.month = b.month ∧ stringLtB b.type a.type = false)))

/-- Shared GROUP BY month, type / SUM(amount) / ORDER BY month, type shaping
over the rows selected by either dialect's WHERE clause. -/
def monthlyRollup (rows : List TransactionRow) : List MonthlyEntry :=
  let keys := (rows.map (fun r => (sqliteMonthOf r.date, r.type))).dedup
  (keys.map (fun k =>
    { month := k.1, type := k.2,
      total := sumAmounts (rows.filter (fun r =>
        sqliteMonthOf r.date == k.1 && r.type.data == k.2.data)) })).insertionSort
    monthlyLe

/-- Transaction.getMonthlyData on the SQLite branch: the WHERE clause compares
strftime of the year — a TEXT value — against the bound parameter, which is
the integer the route produced with parseInt(year); the comparison is typed,
so it uses sqliteValueEq. -/
def Transaction.getMonthlyDataSqlite (store : List TransactionRow) (year : Int) :
    List MonthlyEntry :=
  monthlyRollup (store.filter (fun r =>
    sqliteValueEq (sqliteStrftimeY r.date) (.intV year)))

/-- Transaction.getMonthlyData on the PostgreSQL branch: EXTRACT(YEAR FROM
date) is numeric, so the comparison with the integer parameter is numeric. -/
def Transaction.getMonthlyDataPg (store : List TransactionRow) (year : Int) :
    List MonthlyEntry :=
  monthlyRollup (store.filter (fun r => pgYearOf r.date == year))

/- ===== Category.getByName ===== -/

/-- SQLite's built-in lower function folds only the ASCII letters A..Z; bytes
outside the ASCII range pass through unchanged (the ICU extension that would
extend it is not loaded by the bundled driver). -/
def sqliteLowerChar (ch : Char) : Char :=
  if 65 ≤ ch.toNat ∧ ch.toNat ≤ 90 then Char.ofNat (ch.toNat + 32) else ch

def sqliteLower (s : String) : String := String.mk (s.data.map sqliteLowerChar)

/-- PostgreSQL's lower under a UTF-8 locale also folds accented letters; the
model covers the Latin-1 uppercase block À..Þ (× excepted), which suffices for
the category names in play. -/
def pgLowerChar (ch : Char) : Char :=
  if (65 ≤ ch.toNat ∧ ch.toNat ≤ 90) ∨
     (192 ≤ ch.toNat ∧ ch.toNat ≤ 222 ∧ ch.toNat ≠ 215) then
    Char.ofNat (ch.toNat + 32)
  else ch

def pgLower (s : String) : String := String.mk (s.data.map pgLowerChar)

/-- Category.getByName on the SQLite branch: SELECT * FROM categories WHERE
LOWER(name) = LOWER(?), first row or null. -/
def Category.getByNameSqlite (cats : List CategoryRow) (name : String) :
    Option CategoryRow :=
  cats.find? (fun c => (sqliteLower c.name).data == (sqliteLower name).data)

/-- Category.getByName on the PostgreSQL branch, same query with LOWER
evaluated by PostgreSQL. -/
def Category.getByNamePg (cats : List CategoryRow) (name : String) :
    Option CategoryRow :=
  cats.find? (fun c => (pgLower c.name).data == (pgLower name).data)

/- ===== Category.delete and the REST error handler ===== -/

/-- Shape of a thrown JS error as the express errorHandler inspects it. -/
structure AppError where
  name : String
  code : Option String
  message : String
deriving DecidableEq

/-- The errorHandler middleware in server/index.js: ValidationError becomes
400; a driver constraint violation (code SQLITE_CONSTRAINT or 23505) becomes
409; anything else becomes 500. -/
def errorHandlerStatus (e : AppError) : Nat :=
  if e.name = "ValidationError" then 400
  else if e.code = some "SQLITE_CONSTRAINT" ∨ e.code = some "23505" then 409
  else 500

def Category.deleteInUseMessage (n : Nat) : String :=
  "No se puede eliminar la categoría porque está siendo usada en " ++
    toString n ++ " transacción(es)"

/-- The in-use check Category.delete performs on both branches: count the
transactions whose category string equals
(SELECT name FROM categories WHERE id = ?) — a missing category makes the
subquery NULL, which matches no row. -/
def Category.usageCountOf (cats : List CategoryRow) (txs : List TransactionRow)
    (id : Nat) : Nat :=
  match (cats.find? (fun c => c.id == id)).map (fun c => c.name) with
  | none => 0
  | some nm => txs.countP (fun t => t.category.data == nm.data)

/-- Category.delete on the SQLite branch: when the usage count is positive,
throw a plain Error (its name stays "Error" and it carries no driver code)
before any DELETE runs, so the table is unchanged; otherwise
DELETE FROM categories WHERE id = ? and report result.changes > 0. -/
def Category.deleteSqlite (cats : List CategoryRow) (txs : List TransactionRow)
    (id : Nat) : Except AppError Bool × List CategoryRow :=
  let usageCount := Category.usageCountOf cats txs id
  if 0 < usageCount then
    (.error { name := "Error", code := none,
              message := Category.deleteInUseMessage usageCount }, cats)
  else
    (.ok (decide (0 < cats.countP (fun c => c.id == id))),
     cats.filter (fun c => !(c.id == id)))

/-- Category.delete on the PostgreSQL branch: the same in-use check, then
DELETE FROM categories WHERE id = $1. That statement carries no RETURNING
clause, so queryPostgreSQL hands back result.rows — always the empty array —
and an array has no rowCount field; `result.length > 0 || result.rowCount > 0`
is therefore false even when the DELETE did remove the row. -/
def Category.deletePg (cats : List CategoryRow) (txs : List TransactionRow)
    (id : Nat) : Except AppError Bool × List CategoryRow :=
  let usageCount := Category.usageCountOf cats txs id
  if 0 < usageCount then
    (.error { name := "Error", code := none,
              message := Category.deleteInUseMessage usageCount }, cats)
  else
    (.ok false, cats.filter (fun c => !(c.id == id)))

/-- HTTP status DELETE /api/categories/:id responds with, given what
Category.delete produced: 200 when delete returned true, 404 when it returned
false, and otherwise whatever the errorHandler assigns to the thrown error. -/
def Category.routeStatusOf (result : Except AppError Bool) : Nat :=
  match result with
  | .ok true => 200
  | .ok false => 404
  | .error e => errorHandlerStatus e

def Category.deleteRouteStatusSqlite (cats : List CategoryRow)
    (txs : List TransactionRow) (id : Nat) : Nat :=
  Category.routeStatusOf (Category.deleteSqlite cats txs id).1

def Category.deleteRouteStatusPg (cats : List CategoryRow)
    (txs : List TransactionRow) (id : Nat) : Nat :=
  Category.routeStatusOf (Category.deletePg cats txs id).1

/- ===== DatabaseManager.close ===== -/

/-- Driver-level connection state: the sqlite3 handle records whether it has
been closed; the pg pool records whether end() has been called (`ending`). -/
inductive DbConnection where
  | sqlite (closed : Bool)
  | pgPool (ending : Bool)
deriving DecidableEq

structure DatabaseManager where
  dbType : String
  connection : Option DbConnection
  isConnected : Bool
deriving DecidableEq

/-- DatabaseManager.close. On the postgresql branch it awaits pool.end() —
which the pg driver rejects with "Called end on pool more than once" when the
pool is already ending — and only then clears isConnected. On the sqlite
branch the source returns the wrapping promise directly, so the trailing
isConnected = false assignment never runs there; the sqlite3 driver's error on
closing an already-closed handle is only logged by the callback, never
surfaced. In every state the source reaches, the connection's constructor
agrees with dbType. -/
def DatabaseManager.close (m : DatabaseManager) :
    Except String Unit × DatabaseManager :=
  match m.connection with
  | none => (.ok (), m)
  | some conn =>
    if m.dbType = "postgresql" then
      match conn with
      | .pgPool ending =>
        if ending then (.error "Called end on pool more than once", m)
        else (.ok (), { m with connection := some (.pgPool true), isConnected := false })
      | .sqlite _ => (.error "backend mismatch", m)
    else
      match conn with
      | .sqlite _ => (.ok (), { m with connection := some (.sqlite true) })
      | .pgPool _ => (.error "backend mismatch", m)

/- ===================================================================== -/
/- ===== theorems ===== -/
/- ===================================================================== -/

/- ===== order facts for the TEXT collation ===== -/

theorem char_eq_of_toNat_eq {a b : Char} (h : a.toNat = b.toNat) : a = b :=
  Char.ext (UInt32.ext h)

theorem charListLt_trans :
    ∀ as bs cs, charListLt as bs = true → charListLt bs cs = true →
      charListLt as cs = true := by
  intro as
  induction as with
  | nil =>
    intro bs cs h1 h2
    cases bs with
    | nil => simp [charListLt] at h1
    | cons b bs =>
      cases cs with
      | nil => simp [charListLt] at h2
      | cons c cs => simp [charListLt]
  | cons a as ih =>
    intro bs cs h1 h2
    cases bs with
    | nil => simp [charListLt] at h1
    | cons b bs =>
      cases cs with
      | nil => simp [charListLt] at h2
      | cons c cs =>
        simp only [charListLt, Bool.or_eq_true, Bool.and_eq_true,
          decide_eq_true_eq] at h1 h2 ⊢
        rcases h1 with h1 | ⟨hab, h1⟩
        · rcases h2 with h2 | ⟨hbc, h2⟩
          · exact Or.inl (Nat.lt_trans h1 h2)
          · exact Or.inl (by omega)
        · rcases h2 with h2 | ⟨hbc, h2⟩
          · exact Or.inl (by omega)
          · exact Or.inr ⟨by omega, ih bs cs h1 h2⟩

theorem charListLt_connex :
    ∀ as bs, charListLt as bs = false → charListLt bs as = false → as = bs := by
  intro as
  induction as with
  | nil =>
    intro bs h1 h2
    cases bs with
    | nil => rfl
    | cons b bs => simp [charListLt] at h1
  | cons a as ih =>
    intro bs h1 h2
    cases bs with
    | nil => simp [charListLt] at h2
    | cons b bs =>
      simp only [charListLt, Bool.or_eq_false_iff, Bool.and_eq_false_iff,
        decide_eq_false_iff_not] at h1 h2
      have hab : a.toNat = b.toNat := by omega
      have htail : charListLt as bs = false := by
        rcases h1.2 with h | h
        · exact absurd hab h
        · exact h
      have htail2 : charListLt bs as = false := by
        rcases h2.2 with h | h
        · exact absurd hab.symm h
        · exact h
      rw [char_eq_of_toNat_eq hab, ih bs htail htail2]

theorem txOrd_trans : ∀ a b c, txOrd a b → txOrd b c → txOrd a c := by
  intro a b c h1 h2
  simp only [txOrd, txLe, stringLtB, Bool.or_eq_true, Bool.and_eq_true,
    decide_eq_true_eq, beq_iff_eq] at h1 h2 ⊢
  rcases h1 with h1 | ⟨hd1, hc1⟩
  · rcases h2 with h2 | ⟨hd2, hc2⟩
    · exact Or.inl (charListLt_trans _ _ _ h2 h1)
    · exact Or.inl (hd2 ▸ h1)
  · rcases h2 with h2 | ⟨hd2, hc2⟩
    · exact Or.inl (hd1 ▸ h2)
    · exact Or.inr ⟨by rw [hd2, hd1], Nat.le_trans hc2 hc1⟩

theorem txOrd_total : ∀ a b, txOrd a b ∨ txOrd b a := by
  intro a b
  simp only [txOrd, txLe, stringLtB, Bool.or_eq_true, Bool.and_eq_true,
    decide_eq_true_eq, beq_iff_eq]
  cases hba : charListLt b.date.data a.date.data with
  | true => exact Or.inl (Or.inl rfl)
  | false =>
    cases hab : charListLt a.date.data b.date.data with
    | true => exact Or.inr (Or.inl rfl)
    | false =>
      have hd := charListLt_connex _ _ hab hba
      rcases Nat.le_total b.created_at a.created_at with h | h
      · exact Or.inl (Or.inr ⟨hd.symm, h⟩)
      · exact Or.inr (Or.inr ⟨hd, h⟩)

theorem string_eq_of_data_eq {s t : String} (h : s.data = t.data) : s = t := by
  cases s
  cases t
  exact congrArg String.mk h

/- ===== getAll: the built conjunction agrees with the spec-side matcher ===== -/

theorem all_optCond (v : Option String) (mk : String → TransactionRow → Bool)
    (r : TransactionRow) :
    (optCond v mk).all (fun g => g r) = optFilterHolds v (fun s => mk s r) := by
  cases v with
  | none => simp [optCond, optFilterHolds]
  | some s =>
    by_cases h : s.data = []
    · simp [optCond, optFilterHolds, h]
    · simp [optCond, optFilterHolds, h]

theorem Transaction.getAllConds_all (f : TransactionFilters) (r : TransactionRow) :
    (Transaction.getAllConds f).all (fun g => g r) = matchesFilters f r := by
  simp only [Transaction.getAllConds, List.all_append, all_optCond, matchesFilters,
    Bool.and_assoc]

/- ===== C1 ===== -/

/-- C1: the claim says getStatistics succeeds for every filter supplying both
startDate and endDate; in fact the built dateFilter is a second WHERE clause
appended after the `WHERE type = ...` each aggregate query already contains,
so every one of the four generated statements is a syntax error and
getStatistics always rethrows the generic statistics error in that case,
on both backends. -/
theorem Transaction.getStatistics_dateRange_fails (store : List TransactionRow)
    (f : StatisticsFilters) (h1 : optStringTruthy f.startDate = true)
    (h2 : optStringTruthy f.endDate = true) :
    Transaction.getStatistics store f = .error "Error al obtener las estadísticas" := by
  unfold Transaction.getStatistics
  rw [h1, h2]
  rfl

/-- Witness for C1 at a concrete input: the January 2024 range on the empty
store. -/
theorem Transaction.getStatistics_dateRange_fails_witness :
    Transaction.getStatistics []
        { startDate := some "2024-01-01", endDate := some "2024-01-31" } =
      .error "Error al obtener las estadísticas" :=
  Transaction.getStatistics_dateRange_fails []
    { startDate := some "2024-01-01", endDate := some "2024-01-31" } (by rfl) (by rfl)

/- ===== C2 ===== -/

/-- C2: the claim says getStatistics returns all-zero aggregates whenever no
transaction matches the filter; on this store the 2025 date range matches no
row, yet getStatistics fails with the generic statistics error (the malformed
second WHERE clause of C1) instead of returning zeros. -/
theorem Transaction.getStatistics_noMatch_fails :
    Transaction.getStatistics
        [⟨1, "income", 100, "Salario mensual", "Salario", "2024-06-01", 4, 4⟩]
        { startDate := some "2025-01-01", endDate := some "2025-12-31" } =
      .error "Error al obtener las estadísticas" := by
  rfl

/- ===== C8 ===== -/

/-- C8: the claim's scenario expects getMonthlyData(2024) to contain the March
entry after inserting one March 2024 income row; on the SQLite backend the
WHERE clause compares the TEXT result of strftime with the INTEGER parameter
parseInt produced, two different storage classes that are never equal, so
getMonthlyData returns the empty sequence for every store and every year. -/
theorem Transaction.getMonthlyDataSqlite_always_empty
    (store : List TransactionRow) (year : Int) :
    Transaction.getMonthlyDataSqlite store year = [] := by
  have hfilter :
      store.filter (fun r => sqliteValueEq (sqliteStrftimeY r.date) (.intV year)) = [] := by
    apply List.filter_eq_nil_iff.mpr
    intro r _
    unfold sqliteStrftimeY
    split <;> simp [sqliteValueEq]
  unfold Transaction.getMonthlyDataSqlite
  rw [hfilter]
  rfl

/-- Supporting fact: the PostgreSQL branch of getMonthlyData, whose WHERE
clause compares numerically, does produce the single entry the scenario in the
specification expects, which shows the SQLite branch is the deviation. -/
theorem Transaction.getMonthlyDataPg_scenario :
    Transaction.getMonthlyDataPg
        [⟨1, "income", 100, "Salario mensual", "Salario", "2024-03-05", 4, 4⟩] 2024 =
      [⟨3, "income", 100⟩] := by
  simp [Transaction.getMonthlyDataPg, monthlyRollup, sumAmounts, pgYearOf,
    fourDigitValue, sqliteMonthOf, twoDigitValue]

/- ===== C7 ===== -/

/-- C7: Transaction.delete reports through a boolean whether a row was removed
and never errors on a missing row; deleting an existing id twice yields true
then false, on both backends, and the second call leaves the store as it
was. -/
theorem Transaction.delete_idempotent (store : List TransactionRow) (id : Nat)
    (h : ∃ r ∈ store, r.id = id) :
    (Transaction.deleteSqlite store id).1 = true ∧
    (Transaction.deletePg store id).1 = true ∧
    Transaction.deleteSqlite (Transaction.deleteSqlite store id).2 id =
      (false, (Transaction.deleteSqlite store id).2) ∧
    Transaction.deletePg (Transaction.deletePg store id).2 id =
      (false, (Transaction.deletePg store id).2) := by
  obtain ⟨r, hr, hrid⟩ := h
  have hpred : (fun x : TransactionRow => x.id == id) r = true := by
    simp [hrid]
  have hcnt : 0 < store.countP (fun x => x.id == id) :=
    List.countP_pos_iff.mpr ⟨r, hr, hpred⟩
  have hzero : ∀ s : List TransactionRow,
      (s.filter (fun x => !(x.id == id))).countP (fun x => x.id == id) = 0 := by
    intro s
    apply List.countP_eq_zero.mpr
    intro a ha
    have h2 := (List.mem_filter.mp ha).2
    simp only [Bool.not_eq_eq_eq_not, Bool.not_true] at h2
    simp [h2]
  have hfilterfix : ∀ s : List TransactionRow,
      (s.filter (fun x => !(x.id == id))).filter (fun x => !(x.id == id)) =
        s.filter (fun x => !(x.id == id)) := by
    intro s
    rw [List.filter_filter]
    apply List.filter_congr
    intro a _
    exact Bool.and_self _
  have hnilpg : ∀ s : List TransactionRow,
      (s.filter (fun x => !(x.id == id))).filter (fun x => x.id == id) = [] := by
    intro s
    apply List.filter_eq_nil_iff.mpr
    intro a ha
    have h2 := (List.mem_filter.mp ha).2
    simp only [Bool.not_eq_eq_eq_not, Bool.not_true] at h2
    simp [h2]
  refine ⟨by simp [Transaction.deleteSqlite, hcnt], ?_, ?_, ?_⟩
  · have hmemf : r ∈ store.filter (fun x => x.id == id) :=
      List.mem_filter.mpr ⟨hr, hpred⟩
    simp [Transaction.deletePg, List.length_pos_of_mem hmemf]
  · unfold Transaction.deleteSqlite
    rw [hzero, hfilterfix]
    simp
  · unfold Transaction.deletePg
    rw [hnilpg, hfilterfix]
    simp

/-- Witness for C7: a one-row store; the first delete reports true on both
backends, the second reports false and leaves the store unchanged. -/
theorem Transaction.delete_idempotent_witness :
    (Transaction.deleteSqlite [⟨7, "income", 100, "Pago", "Salario", "2024-01-02", 1, 1⟩] 7).1 = true ∧
    (Transaction.deletePg [⟨7, "income", 100, "Pago", "Salario", "2024-01-02", 1, 1⟩] 7).1 = true ∧
    Transaction.deleteSqlite
        (Transaction.deleteSqlite [⟨7, "income", 100, "Pago", "Salario", "2024-01-02", 1, 1⟩] 7).2 7 =
      (false, (Transaction.deleteSqlite [⟨7, "income", 100, "Pago", "Salario", "2024-01-02", 1, 1⟩] 7).2) ∧
    Transaction.deletePg
        (Transaction.deletePg [⟨7, "income", 100, "Pago", "Salario", "2024-01-02", 1, 1⟩] 7).2 7 =
      (false, (Transaction.deletePg [⟨7, "income", 100, "Pago", "Salario", "2024-01-02", 1, 1⟩] 7).2) :=
  Transaction.delete_idempotent [⟨7, "income", 100, "Pago", "Salario", "2024-01-02", 1, 1⟩] 7
    ⟨⟨7, "income", 100, "Pago", "Salario", "2024-01-02", 1, 1⟩, by simp, rfl⟩

/- ===== C3 ===== -/

/-- C3 counterexample: a category referenced by one transaction is refused
with a message naming the count and the row survives — but the thrown error is
a plain Error that matches neither the ValidationError branch nor the
driver-code branch of the errorHandler, so the REST status is 500 on both
backends, not the 409 the claim states; and deleting an unreferenced category
on the PostgreSQL backend removes the row yet reports false (the DELETE has no
RETURNING clause), so the route answers 404 instead of succeeding. -/
theorem Category.delete_inUse_cex :
    (Category.deleteSqlite [⟨1, "Ocio", "expense", none, none, none, 3, 3⟩]
        [⟨1, "expense", 25, "Cine", "Ocio", "2024-01-12", 5, 5⟩] 1).1 =
      .error { name := "Error", code := none,
               message := "No se puede eliminar la categoría porque está siendo usada en 1 transacción(es)" } ∧
    (Category.deleteSqlite [⟨1, "Ocio", "expense", none, none, none, 3, 3⟩]
        [⟨1, "expense", 25, "Cine", "Ocio", "2024-01-12", 5, 5⟩] 1).2 =
      [⟨1, "Ocio", "expense", none, none, none, 3, 3⟩] ∧
    Category.deleteRouteStatusSqlite [⟨1, "Ocio", "expense", none, none, none, 3, 3⟩]
        [⟨1, "expense", 25, "Cine", "Ocio", "2024-01-12", 5, 5⟩] 1 = 500 ∧
    Category.deleteRouteStatusPg [⟨1, "Ocio", "expense", none, none, none, 3, 3⟩]
        [⟨1, "expense", 25, "Cine", "Ocio", "2024-01-12", 5, 5⟩] 1 = 500 ∧
    Category.deletePg [⟨1, "Ocio", "expense", none, none, none, 3, 3⟩] [] 1 =
      (.ok false, []) ∧
    Category.deleteRouteStatusPg [⟨1, "Ocio", "expense", none, none, none, 3, 3⟩] [] 1 = 404 :=
  ⟨rfl, rfl, rfl, rfl, rfl, rfl⟩

/-- C3 (amended): deleting a category referenced by N ≥ 1 transactions (string
equality on the stored category field) is rejected before any row is deleted,
with an Error whose message names N; over REST this surfaces as 500 on both
backends, because the error is a plain Error rather than a Conflict-classified
one. Deleting an existing, unreferenced category removes the row on both
backends, but only the sqlite branch reports it: there the route answers 200,
while the postgresql branch — whose DELETE has no RETURNING clause, so the
empty result.rows has neither entries nor a rowCount — returns false and the
route answers 404 even though the row was removed. -/
theorem Category.delete_spec (cats : List CategoryRow) (txs : List TransactionRow)
    (id : Nat) (c : CategoryRow)
    (hfind : cats.find? (fun x => x.id == id) = some c) :
    (0 < txs.countP (fun t => t.category.data == c.name.data) →
      Category.deleteSqlite cats txs id =
        (.error { name := "Error", code := none,
                  message := Category.deleteInUseMessage
                    (txs.countP (fun t => t.category.data == c.name.data)) }, cats) ∧
      Category.deletePg cats txs id =
        (.error { name := "Error", code := none,
                  message := Category.deleteInUseMessage
                    (txs.countP (fun t => t.category.data == c.name.data)) }, cats) ∧
      Category.deleteRouteStatusSqlite cats txs id = 500 ∧
      Category.deleteRouteStatusPg cats txs id = 500) ∧
    (txs.countP (fun t => t.category.data == c.name.data) = 0 →
      Category.deleteSqlite cats txs id =
        (.ok true, cats.filter (fun x => !(x.id == id))) ∧
      Category.deleteRouteStatusSqlite cats txs id = 200 ∧
      Category.deletePg cats txs id =
        (.ok false, cats.filter (fun x => !(x.id == id))) ∧
      Category.deleteRouteStatusPg cats txs id = 404) := by
  have hmem := List.mem_of_find?_eq_some hfind
  have hpred := List.find?_some hfind
  have hcnt : 0 < cats.countP (fun x => x.id == id) :=
    List.countP_pos_iff.mpr ⟨c, hmem, hpred⟩
  have husage : Category.usageCountOf cats txs id =
      txs.countP (fun t => t.category.data == c.name.data) := by
    unfold Category.usageCountOf
    rw [hfind]
    rfl
  constructor
  · intro hpos
    have hdelS : Category.deleteSqlite cats txs id =
        (.error { name := "Error", code := none,
                  message := Category.deleteInUseMessage
                    (txs.countP (fun t => t.category.data == c.name.data)) }, cats) := by
      unfold Category.deleteSqlite
      rw [husage, if_pos hpos]
    have hdelP : Category.deletePg cats txs id =
        (.error { name := "Error", code := none,
                  message := Category.deleteInUseMessage
                    (txs.countP (fun t => t.category.data == c.name.data)) }, cats) := by
      unfold Category.deletePg
      rw [husage, if_pos hpos]
    refine ⟨hdelS, hdelP, ?_, ?_⟩
    · unfold Category.deleteRouteStatusSqlite
      rw [hdelS]
      rfl
    · unfold Category.deleteRouteStatusPg
      rw [hdelP]
      rfl
  · intro hzero
    have hnpos : ¬ 0 < txs.countP (fun t => t.category.data == c.name.data) := by omega
    have hdelS : Category.deleteSqlite cats txs id =
        (.ok true, cats.filter (fun x => !(x.id == id))) := by
      unfold Category.deleteSqlite
      rw [husage, if_neg hnpos]
      simp [hcnt]
    have hdelP : Category.deletePg cats txs id =
        (.ok false, cats.filter (fun x => !(x.id == id))) := by
      unfold Category.deletePg
      rw [husage, if_neg hnpos]
    refine ⟨hdelS, ?_, hdelP, ?_⟩
    · unfold Category.deleteRouteStatusSqlite
      rw [hdelS]
      rfl
    · unfold Category.deleteRouteStatusPg
      rw [hdelP]
      rfl

/-- Witness for C3 at concrete inputs: with one referencing transaction the
delete is refused and both backends answer 500; with no referencing
transaction the sqlite branch removes the row and answers 200 while the
postgresql branch removes the row, reports false and answers 404. -/
theorem Category.delete_spec_witness :
    (Category.deleteSqlite [⟨1, "Ocio", "expense", none, none, none, 3, 3⟩]
        [⟨1, "expense", 25, "Cine", "Ocio", "2024-01-12", 5, 5⟩] 1 =
      (.error { name := "Error", code := none,
                message := Category.deleteInUseMessage 1 },
       [⟨1, "Ocio", "expense", none, none, none, 3, 3⟩]) ∧
     Category.deletePg [⟨1, "Ocio", "expense", none, none, none, 3, 3⟩]
        [⟨1, "expense", 25, "Cine", "Ocio", "2024-01-12", 5, 5⟩] 1 =
      (.error { name := "Error", code := none,
                message := Category.deleteInUseMessage 1 },
       [⟨1, "Ocio", "expense", none, none, none, 3, 3⟩]) ∧
     Category.deleteRouteStatusSqlite [⟨1, "Ocio", "expense", none, none, none, 3, 3⟩]
        [⟨1, "expense", 25, "Cine", "Ocio", "2024-01-12", 5, 5⟩] 1 = 500 ∧
     Category.deleteRouteStatusPg [⟨1, "Ocio", "expense", none, none, none, 3, 3⟩]
        [⟨1, "expense", 25, "Cine", "Ocio", "2024-01-12", 5, 5⟩] 1 = 500) ∧
    (Category.deleteSqlite [⟨1, "Ocio", "expense", none, none, none, 3, 3⟩] [] 1 =
      (.ok true, []) ∧
     Category.deleteRouteStatusSqlite [⟨1, "Ocio", "expense", none, none, none, 3, 3⟩] [] 1 = 200 ∧
     Category.deletePg [⟨1, "Ocio", "expense", none, none, none, 3, 3⟩] [] 1 =
      (.ok false, []) ∧
     Category.deleteRouteStatusPg [⟨1, "Ocio", "expense", none, none, none, 3, 3⟩] [] 1 = 404) :=
  ⟨(Category.delete_spec [⟨1, "Ocio", "expense", none, none, none, 3, 3⟩]
      [⟨1, "expense", 25, "Cine", "Ocio", "2024-01-12", 5, 5⟩] 1
      ⟨1, "Ocio", "expense", none, none, none, 3, 3⟩ rfl).1 (by decide),
   (Category.delete_spec [⟨1, "Ocio", "expense", none, none, none, 3, 3⟩] [] 1
      ⟨1, "Ocio", "expense", none, none, none, 3, 3⟩ rfl).2 rfl⟩

/- ===== C4 ===== -/

/-- C4 counterexample: ALIMENTACIÓN and alimentación are casing variants of
one another (PostgreSQL's locale-aware lower folds them to the same string),
yet on the SQLite backend getByName misses the stored row, because SQLite's
lower folds only ASCII letters and leaves Ó unchanged. -/
theorem Category.getByName_accent_cex :
    pgLower "ALIMENTACIÓN" = pgLower "alimentación" ∧
    Category.getByNameSqlite [⟨1, "ALIMENTACIÓN", "expense", none, none, none, 2, 2⟩]
        "alimentación" = none ∧
    Category.getByNamePg [⟨1, "ALIMENTACIÓN", "expense", none, none, none, 2, 2⟩]
        "alimentación" = some ⟨1, "ALIMENTACIÓN", "expense", none, none, none, 2, 2⟩ :=
  ⟨rfl, rfl, rfl⟩

/-- C4 (amended): getByName matches by equality of LOWER(name) under the
backend's lower function and returns null when no stored name matches; any
returned row is a stored row whose lowered name equals the lowered query, and
whenever some stored row lower-matches, a row is returned. SQLite's lower
folds only ASCII letters, so casing variants that differ in the case of a
non-ASCII letter are not matched there, while PostgreSQL's locale-aware lower
also folds the accented (Latin-1) letters. -/
theorem Category.getByName_spec (cats : List CategoryRow) (name : String) :
    (∀ c, Category.getByNameSqlite cats name = some c →
        c ∈ cats ∧ sqliteLower c.name = sqliteLower name) ∧
    ((∀ c ∈ cats, sqliteLower c.name ≠ sqliteLower name) →
        Category.getByNameSqlite cats name = none) ∧
    (∀ c ∈ cats, sqliteLower c.name = sqliteLower name →
        ∃ r, Category.getByNameSqlite cats name = some r) ∧
    (∀ c, Category.getByNamePg cats name = some c →
        c ∈ cats ∧ pgLower c.name = pgLower name) ∧
    ((∀ c ∈ cats, pgLower c.name ≠ pgLower name) →
        Category.getByNamePg cats name = none) ∧
    (∀ c ∈ cats, pgLower c.name = pgLower name →
        ∃ r, Category.getByNamePg cats name = some r) := by
  refine ⟨?_, ?_, ?_, ?_, ?_, ?_⟩
  · intro c hc
    refine ⟨List.mem_of_find?_eq_some hc, ?_⟩
    have := List.find?_some hc
    exact string_eq_of_data_eq (by simpa using this)
  · intro hnone
    apply List.find?_eq_none.mpr
    intro x hx
    simp only [beq_iff_eq]
    intro hdata
    exact hnone x hx (string_eq_of_data_eq hdata)
  · intro c hc hlow
    have : (Category.getByNameSqlite cats name).isSome = true := by
      unfold Category.getByNameSqlite
      rw [List.find?_isSome]
      exact ⟨c, hc, by simp [hlow]⟩
    obtain ⟨r, hr⟩ := Option.isSome_iff_exists.mp this
    exact ⟨r, hr⟩
  · intro c hc
    refine ⟨List.mem_of_find?_eq_some hc, ?_⟩
    have := List.find?_some hc
    exact string_eq_of_data_eq (by simpa using this)
  · intro hnone
    apply List.find?_eq_none.mpr
    intro x hx
    simp only [beq_iff_eq]
    intro hdata
    exact hnone x hx (string_eq_of_data_eq hdata)
  · intro c hc hlow
    have : (Category.getByNamePg cats name).isSome = true := by
      unfold Category.getByNamePg
      rw [List.find?_isSome]
      exact ⟨c, hc, by simp [hlow]⟩
    obtain ⟨r, hr⟩ := Option.isSome_iff_exists.mp this
    exact ⟨r, hr⟩

/-- Witness for C4: the ASCII casing variant OCIO of the stored name Ocio is
found on both backends. -/
theorem Category.getByName_spec_witness :
    (∃ r, Category.getByNameSqlite [⟨1, "Ocio", "expense", none, none, none, 3, 3⟩]
        "OCIO" = some r) ∧
    (∃ r, Category.getByNamePg [⟨1, "Ocio", "expense", none, none, none, 3, 3⟩]
        "OCIO" = some r) :=
  ⟨(Category.getByName_spec [⟨1, "Ocio", "expense", none, none, none, 3, 3⟩] "OCIO").2.2.1
      ⟨1, "Ocio", "expense", none, none, none, 3, 3⟩ (by simp) rfl,
   (Category.getByName_spec [⟨1, "Ocio", "expense", none, none, none, 3, 3⟩] "OCIO").2.2.2.2.2
      ⟨1, "Ocio", "expense", none, none, none, 3, 3⟩ (by simp) rfl⟩

/- ===== C9 ===== -/

/-- C9 counterexample: on the sqlite backend a successful close() leaves the
manager still flagged as connected (the source returns before the
isConnected = false assignment), so the state after close is not an inactive
one; and on the postgresql backend a second close() after a successful one
rejects with the pool's double-end error instead of succeeding. -/
theorem DatabaseManager.close_claim_cex :
    ((DatabaseManager.close
        { dbType := "sqlite", connection := some (.sqlite false), isConnected := true }).2).isConnected
      = true ∧
    (DatabaseManager.close
        (DatabaseManager.close
          { dbType := "postgresql", connection := some (.pgPool false), isConnected := true }).2).1
      = .error "Called end on pool more than once" :=
  ⟨rfl, rfl⟩

/-- C9 (amended): only the sqlite branch of close() is idempotent — a second
close() succeeds and leaves the manager state unchanged, though the manager is
never marked inactive because the branch returns before the isConnected
assignment; on the postgresql branch the first close() does mark the manager
inactive, but a second close() calls pool.end() again, which the driver
rejects. -/
theorem DatabaseManager.close_spec (m : DatabaseManager) :
    (∀ b : Bool, m.dbType = "sqlite" → m.connection = some (.sqlite b) →
      DatabaseManager.close m =
        (.ok (), { m with connection := some (.sqlite true) }) ∧
      ({ m with connection := some (.sqlite true) } : DatabaseManager).isConnected
        = m.isConnected ∧
      DatabaseManager.close { m with connection := some (.sqlite true) } =
        (.ok (), { m with connection := some (.sqlite true) })) ∧
    (m.dbType = "postgresql" → m.connection = some (.pgPool false) →
      DatabaseManager.close m =
        (.ok (), { m with connection := some (.pgPool true), isConnected := false }) ∧
      (DatabaseManager.close
          { m with connection := some (.pgPool true), isConnected := false }).1 =
        .error "Called end on pool more than once") := by
  constructor
  · intro b hty hconn
    refine ⟨?_, rfl, ?_⟩
    · unfold DatabaseManager.close
      rw [hconn]
      simp [hty]
    · unfold DatabaseManager.close
      simp [hty]
  · intro hty hconn
    constructor
    · unfold DatabaseManager.close
      rw [hconn]
      simp [hty]
    · unfold DatabaseManager.close
      simp [hty]

/-- Witness for C9: a freshly connected manager of each backend. -/
theorem DatabaseManager.close_spec_witness :
    (DatabaseManager.close
        { dbType := "sqlite", connection := some (.sqlite false), isConnected := true } =
      (.ok (), { dbType := "sqlite", connection := some (.sqlite true), isConnected := true }) ∧
     ({ dbType := "sqlite", connection := some (.sqlite true), isConnected := true } : DatabaseManager).isConnected
       = ({ dbType := "sqlite", connection := some (.sqlite false), isConnected := true } : DatabaseManager).isConnected ∧
     DatabaseManager.close
        { dbType := "sqlite", connection := some (.sqlite true), isConnected := true } =
      (.ok (), { dbType := "sqlite", connection := some (.sqlite true), isConnected := true })) ∧
    (DatabaseManager.close
        { dbType := "postgresql", connection := some (.pgPool false), isConnected := true } =
      (.ok (), { dbType := "postgresql", connection := some (.pgPool true), isConnected := false }) ∧
     (DatabaseManager.close
        { dbType := "postgresql", connection := some (.pgPool true), isConnected := false }).1 =
      .error "Called end on pool more than once") :=
  ⟨(DatabaseManager.close_spec
      { dbType := "sqlite", connection := some (.sqlite false), isConnected := true }).1
      false rfl rfl,
   (DatabaseManager.close_spec
      { dbType := "postgresql", connection := some (.pgPool false), isConnected := true }).2
      rfl rfl⟩

/- ===== C6 ===== -/

theorem find?_id_append_fresh (store : List TransactionRow) (row : TransactionRow)
    (h : ∀ r ∈ store, r.id ≠ row.id) :
    (store ++ [row]).find? (fun r => r.id == row.id) = some row := by
  induction store with
  | nil => simp
  | cons a t ih =>
    have ha : (a.id == row.id) = false := by
      simp only [beq_eq_false_iff_ne, ne_eq]
      exact h a (by simp)
    simp only [List.cons_append, List.find?_cons, ha]
    exact ih (fun r hr => h r (by simp [hr]))

/-- C6: for a candidate the schema accepts, create inserts the row and the
subsequent getById (which the SQLite branch performs itself via lastID, and
which the PostgreSQL branch's caller can perform on the returned id) yields a
record equal to the candidate on type, amount, description, category and date,
with the generated id and both timestamps populated with the insert-time
clock. -/
theorem Transaction.create_then_getById (store : List TransactionRow)
    (nextId now : Nat) (c : TransactionCandidate)
    (hok : Transaction.validate c = .ok c)
    (hfresh : ∀ r ∈ store, r.id ≠ nextId) :
    (Transaction.createSqlite store nextId now c).1 =
      .ok (some { id := nextId, type := c.type, amount := c.amount,
                  description := c.description, category := c.category,
                  date := c.date, created_at := now, updated_at := now }) ∧
    (Transaction.createPg store nextId now c).1 =
      .ok (some { id := nextId, type := c.type, amount := c.amount,
                  description := c.description, category := c.category,
                  date := c.date, created_at := now, updated_at := now }) ∧
    Transaction.getById (Transaction.createPg store nextId now c).2 nextId =
      some { id := nextId, type := c.type, amount := c.amount,
             description := c.description, category := c.category,
             date := c.date, created_at := now, updated_at := now } := by
  have hfind := find?_id_append_fresh store
      { id := nextId, type := c.type, amount := c.amount,
        description := c.description, category := c.category,
        date := c.date, created_at := now, updated_at := now } hfresh
  refine ⟨?_, ?_, ?_⟩
  · simp only [Transaction.createSqlite, hok, Transaction.getById]
    rw [hfind]
  · simp only [Transaction.createPg, hok]
  · simp only [Transaction.createPg, hok, Transaction.getById]
    exact hfind

/-- Witness for C6: creating a valid March 2024 salary income in the empty
store with id 1 at clock 7. -/
theorem Transaction.create_then_getById_witness :
    (Transaction.createSqlite [] 1 7 ⟨"income", 100, "Salario mensual", "Salario", "2024-03-05"⟩).1 =
      .ok (some ⟨1, "income", 100, "Salario mensual", "Salario", "2024-03-05", 7, 7⟩) ∧
    (Transaction.createPg [] 1 7 ⟨"income", 100, "Salario mensual", "Salario", "2024-03-05"⟩).1 =
      .ok (some ⟨1, "income", 100, "Salario mensual", "Salario", "2024-03-05", 7, 7⟩) ∧
    Transaction.getById
        (Transaction.createPg [] 1 7 ⟨"income", 100, "Salario mensual", "Salario", "2024-03-05"⟩).2 1 =
      some ⟨1, "income", 100, "Salario mensual", "Salario", "2024-03-05", 7, 7⟩ :=
  Transaction.create_then_getById [] 1 7
    ⟨"income", 100, "Salario mensual", "Salario", "2024-03-05"⟩ (by rfl) (by simp)

/- ===== C10 ===== -/

theorem find?_id_map_update (store : List TransactionRow) (id : Nat)
    (g : TransactionRow → TransactionRow) (hg : ∀ r, (g r).id = r.id)
    (r0 : TransactionRow) (hmem : r0 ∈ store) (hid : r0.id = id)
    (hnodup : (store.map (fun r => r.id)).Nodup) :
    (store.map (fun r => if r.id = id then g r else r)).find? (fun r => r.id == id) =
      some (g r0) := by
  induction store with
  | nil => cases hmem
  | cons a t ih =>
    simp only [List.map_cons, List.nodup_cons] at hnodup
    by_cases hai : a.id = id
    · have hr0a : r0 = a := by
        rcases List.mem_cons.mp hmem with h | h
        · exact h
        · exfalso
          apply hnodup.1
          rw [hai, ← hid]
          exact List.mem_map.mpr ⟨r0, h, rfl⟩
      subst hr0a
      rw [List.map_cons, if_pos hai]
      have hcond : ((g r0).id == id) = true := by simp [hg, hai]
      simp only [List.find?_cons, hcond]
    · have hr0t : r0 ∈ t := by
        rcases List.mem_cons.mp hmem with h | h
        · exfalso
          apply hai
          rw [← h, hid]
        · exact h
      rw [List.map_cons, if_neg hai]
      have hcond : (a.id == id) = false := by simp [hai]
      simp only [List.find?_cons, hcond]
      exact ih hr0t hnodup.2

theorem filter_ne_map_update (store : List TransactionRow) (id : Nat)
    (g : TransactionRow → TransactionRow) (hg : ∀ r, (g r).id = r.id) :
    (store.map (fun r => if r.id = id then g r else r)).filter (fun r => !(r.id == id)) =
      store.filter (fun r => !(r.id == id)) := by
  induction store with
  | nil => rfl
  | cons a t ih =>
    rw [List.map_cons]
    by_cases hai : a.id = id
    · rw [if_pos hai]
      have h1 : (!((g a).id == id)) = false := by simp [hg, hai]
      have h2 : (!(a.id == id)) = false := by simp [hai]
      simp only [List.filter_cons, h1, h2]
      exact ih
    · rw [if_neg hai]
      have h2 : (!(a.id == id)) = true := by simp [hai]
      simp only [List.filter_cons, h2]
      rw [ih]

/-- C10: on the SQLite branch, update of an existing id (under distinct stored
ids, as the primary key guarantees) rewrites exactly type, amount,
description, category and date of the matched row — the returned record keeps
the row's original created_at and updated_at, because the UPDATE's SET list
omits updated_at and the SQLite schema has no update trigger — and every other
row is untouched; the PostgreSQL branch of the same operation does set
updated_at to the current time. -/
theorem Transaction.updateSqlite_frame (store : List TransactionRow) (id now : Nat)
    (c : TransactionCandidate) (r0 : TransactionRow)
    (hok : Transaction.validate c = .ok c)
    (hmem : r0 ∈ store) (hid : r0.id = id)
    (hnodup : (store.map (fun r => r.id)).Nodup) :
    (Transaction.updateSqlite store id c).1 =
      .ok (some { r0 with
            type := c.type, amount := c.amount, description := c.description,
            category := c.category, date := c.date }) ∧
    (Transaction.updateSqlite store id c).2.filter (fun r => !(r.id == id)) =
      store.filter (fun r => !(r.id == id)) ∧
    (Transaction.updatePg store id now c).1 =
      .ok (some { r0 with
            type := c.type, amount := c.amount, description := c.description,
            category := c.category, date := c.date, updated_at := now }) := by
  have hcnt : store.countP (fun r => r.id == id) ≠ 0 := by
    have : 0 < store.countP (fun r => r.id == id) :=
      List.countP_pos_iff.mpr ⟨r0, hmem, by simp [hid]⟩
    omega
  have hgid1 : ∀ r : TransactionRow,
      ({ r with type := c.type, amount := c.amount, description := c.description,
                category := c.category, date := c.date } : TransactionRow).id = r.id :=
    fun _ => rfl
  have hgid2 : ∀ r : TransactionRow,
      ({ r with type := c.type, amount := c.amount, description := c.description,
                category := c.category, date := c.date,
                updated_at := now } : TransactionRow).id = r.id :=
    fun _ => rfl
  have hfind1 := find?_id_map_update store id _ hgid1 r0 hmem hid hnodup
  have hfind2 := find?_id_map_update store id _ hgid2 r0 hmem hid hnodup
  have hfilter1 := filter_ne_map_update store id _ hgid1
  refine ⟨?_, ?_, ?_⟩
  · simp only [Transaction.updateSqlite, hok]
    rw [if_neg hcnt]
    simp only [Transaction.getById, hfind1]
  · simp only [Transaction.updateSqlite, hok]
    rw [if_neg hcnt]
    exact hfilter1
  · simp only [Transaction.updatePg, hok, hfind2]

/-- Witness for C10: updating the only stored row (created at clock 11, last
updated at clock 12) at clock 99 keeps both timestamps on the SQLite branch
and bumps updated_at to 99 on the PostgreSQL branch. -/
theorem Transaction.updateSqlite_frame_witness :
    (Transaction.updateSqlite [⟨3, "income", 100, "Pago", "Salario", "2024-03-05", 11, 12⟩] 3
        ⟨"expense", 45, "Cena", "Alimentación", "2024-04-01"⟩).1 =
      .ok (some ⟨3, "expense", 45, "Cena", "Alimentación", "2024-04-01", 11, 12⟩) ∧
    (Transaction.updateSqlite [⟨3, "income", 100, "Pago", "Salario", "2024-03-05", 11, 12⟩] 3
        ⟨"expense", 45, "Cena", "Alimentación", "2024-04-01"⟩).2.filter (fun r => !(r.id == 3)) =
      [⟨3, "income", 100, "Pago", "Salario", "2024-03-05", 11, 12⟩].filter (fun r => !(r.id == 3)) ∧
    (Transaction.updatePg [⟨3, "income", 100, "Pago", "Salario", "2024-03-05", 11, 12⟩] 3 99
        ⟨"expense", 45, "Cena", "Alimentación", "2024-04-01"⟩).1 =
      .ok (some ⟨3, "expense", 45, "Cena", "Alimentación", "2024-04-01", 11, 99⟩) :=
  Transaction.updateSqlite_frame [⟨3, "income", 100, "Pago", "Salario", "2024-03-05", 11, 12⟩] 3 99
    ⟨"expense", 45, "Cena", "Alimentación", "2024-04-01"⟩
    ⟨3, "income", 100, "Pago", "Salario", "2024-03-05", 11, 12⟩
    (by rfl) (by simp) rfl (by simp)

/- ===== C5 ===== -/

/-- C5 counterexample: with a supplied limit of 0 the claim requires at most 0
rows, but `if (filters.limit)` is false for 0, so no LIMIT clause is emitted
and the whole store comes back. -/
theorem Transaction.getAll_limitZero_cex :
    ({ limit := some 0 } : TransactionFilters).limit = some 0 ∧
    Transaction.getAll [⟨1, "expense", 25, "Cine", "Ocio", "2024-01-12", 5, 5⟩]
        { limit := some 0 } =
      [⟨1, "expense", 25, "Cine", "Ocio", "2024-01-12", 5, 5⟩] :=
  ⟨rfl, rfl⟩

/-- C5 (amended): getAll returns exactly the rows satisfying the conjunction
of all supplied (truthy) filters, ordered by date descending then creation
time descending; when a nonzero limit n is supplied the result is precisely
the first n entries of a full such descending ordering of all matching rows
(so at most n rows), and when no truncation applies (limit absent — or 0,
which JS treats as falsy and therefore as an absent filter) the result is
exactly the matching rows; an empty match yields an empty sequence rather
than an error. -/
theorem Transaction.getAll_spec (store : List TransactionRow) (f : TransactionFilters) :
    (∀ r ∈ Transaction.getAll store f, matchesFilters f r = true) ∧
    (Transaction.getAll store f).Sorted txOrd ∧
    (∀ n, f.limit = some n → n ≠ 0 → (Transaction.getAll store f).length ≤ n) ∧
    ((f.limit = none ∨ f.limit = some 0) →
      (Transaction.getAll store f).Perm (store.filter (fun r => matchesFilters f r))) ∧
    (∀ n, f.limit = some n → n ≠ 0 →
      ∃ all : List TransactionRow, all.Perm (store.filter (fun r => matchesFilters f r)) ∧
        all.Sorted txOrd ∧ Transaction.getAll store f = all.take n) := by
  have hmeq : store.filter (fun r => (Transaction.getAllConds f).all (fun g => g r)) =
      store.filter (fun r => matchesFilters f r) :=
    List.filter_congr (fun a _ => Transaction.getAllConds_all f a)
  set matched := store.filter (fun r => (Transaction.getAllConds f).all (fun g => g r))
    with hmdef
  have hperm : (matched.insertionSort txOrd).Perm matched :=
    List.perm_insertionSort txOrd matched
  have hsorted : (matched.insertionSort txOrd).Sorted txOrd := by
    haveI : IsTotal TransactionRow txOrd := ⟨txOrd_total⟩
    haveI : IsTrans TransactionRow txOrd := ⟨txOrd_trans⟩
    exact List.sorted_insertionSort txOrd matched
  have hmemmatch : ∀ r, r ∈ matched → matchesFilters f r = true := by
    intro r hr
    rw [hmdef] at hr
    have h2 := (List.mem_filter.mp hr).2
    rw [Transaction.getAllConds_all] at h2
    exact h2
  have hga : Transaction.getAll store f =
      (match f.limit with
       | none => matched.insertionSort txOrd
       | some n => if n = 0 then matched.insertionSort txOrd
                   else (matched.insertionSort txOrd).take n) := rfl
  cases hl : f.limit with
  | none =>
    rw [hl] at hga
    simp only [hga]
    refine ⟨?_, hsorted, ?_, ?_, ?_⟩
    · intro r hr
      exact hmemmatch r (hperm.mem_iff.mp hr)
    · intro n hn
      cases hn
    · intro _
      rw [← hmeq]
      exact hperm
    · intro n hn
      cases hn
  | some n =>
    rw [hl] at hga
    by_cases hn0 : n = 0
    · simp only [hga]
      rw [if_pos hn0]
      refine ⟨?_, hsorted, ?_, ?_, ?_⟩
      · intro r hr
        exact hmemmatch r (hperm.mem_iff.mp hr)
      · intro n' hsome hne
        injection hsome with hh
        omega
      · intro _
        rw [← hmeq]
        exact hperm
      · intro n' hsome hne
        injection hsome with hh
        exact absurd (by omega : n' = 0) hne
    · simp only [hga]
      rw [if_neg hn0]
      refine ⟨?_, ?_, ?_, ?_, ?_⟩
      · intro r hr
        exact hmemmatch r (hperm.mem_iff.mp ((List.take_sublist n _).subset hr))
      · exact List.Pairwise.sublist (List.take_sublist n _) hsorted
      · intro n' hsome hne
        injection hsome with hh
        rw [List.length_take]
        omega
      · intro hcase
        rcases hcase with h | h
        · cases h
        · injection h with hh
          omega
      · intro n' hsome hne
        injection hsome with hh
        refine ⟨matched.insertionSort txOrd, ?_, hsorted, ?_⟩
        · rw [← hmeq]
          exact hperm
        · rw [hh]

/-- Witness for C5 on a two-row store: first with the specification's own
example filter (expense rows of one category inside January 2024, no limit) —
the result is sorted and is exactly the matching rows; then with an expense
filter and the nonzero limit 1 — the result has at most one row and is the
1-row prefix of a full descending ordering of all matching rows. -/
theorem Transaction.getAll_spec_witness :
    (Transaction.getAll
        [⟨1, "expense", 25, "Cine", "Ocio", "2024-01-12", 5, 5⟩,
         ⟨2, "expense", 75, "Cena restaurante", "Alimentación", "2024-01-20", 6, 6⟩]
        { type := some "expense", category := some "Alimentación",
          startDate := some "2024-01-01", endDate := some "2024-01-31" }).Sorted txOrd ∧
    (Transaction.getAll
        [⟨1, "expense", 25, "Cine", "Ocio", "2024-01-12", 5, 5⟩,
         ⟨2, "expense", 75, "Cena restaurante", "Alimentación", "2024-01-20", 6, 6⟩]
        { type := some "expense", category := some "Alimentación",
          startDate := some "2024-01-01", endDate := some "2024-01-31" }).Perm
      ([⟨1, "expense", 25, "Cine", "Ocio", "2024-01-12", 5, 5⟩,
        ⟨2, "expense", 75, "Cena restaurante", "Alimentación", "2024-01-20", 6, 6⟩].filter
        (fun r => matchesFilters
          { type := some "expense", category := some "Alimentación",
            startDate := some "2024-01-01", endDate := some "2024-01-31" } r)) ∧
    (Transaction.getAll
        [⟨1, "expense", 25, "Cine", "Ocio", "2024-01-12", 5, 5⟩,
         ⟨2, "expense", 75, "Cena restaurante", "Alimentación", "2024-01-20", 6, 6⟩]
        { type := some "expense", limit := some 1 }).length ≤ 1 ∧
    (∃ all : List TransactionRow, all.Perm
        ([⟨1, "expense", 25, "Cine", "Ocio", "2024-01-12", 5, 5⟩,
          ⟨2, "expense", 75, "Cena restaurante", "Alimentación", "2024-01-20", 6, 6⟩].filter
          (fun r => matchesFilters ({ type := some "expense", limit := some 1 } : TransactionFilters) r)) ∧
      all.Sorted txOrd ∧
      Transaction.getAll
        [⟨1, "expense", 25, "Cine", "Ocio", "2024-01-12", 5, 5⟩,
         ⟨2, "expense", 75, "Cena restaurante", "Alimentación", "2024-01-20", 6, 6⟩]
        { type := some "expense", limit := some 1 } = all.take 1) :=
  ⟨(Transaction.getAll_spec
      [⟨1, "expense", 25, "Cine", "Ocio", "2024-01-12", 5, 5⟩,
       ⟨2, "expense", 75, "Cena restaurante", "Alimentación", "2024-01-20", 6, 6⟩]
      { type := some "expense", category := some "Alimentación",
        startDate := some "2024-01-01", endDate := some "2024-01-31" }).2.1,
   (Transaction.getAll_spec
      [⟨1, "expense", 25, "Cine", "Ocio", "2024-01-12", 5, 5⟩,
       ⟨2, "expense", 75, "Cena restaurante", "Alimentación", "2024-01-20", 6, 6⟩]
      { type := some "expense", category := some "Alimentación",
        startDate := some "2024-01-01", endDate := some "2024-01-31" }).2.2.2.1 (Or.inl rfl),
   (Transaction.getAll_spec
      [⟨1, "expense", 25, "Cine", "Ocio", "2024-01-12", 5, 5⟩,
       ⟨2, "expense", 75, "Cena restaurante", "Alimentación", "2024-01-20", 6, 6⟩]
      { type := some "expense", limit := some 1 }).2.2.1 1 rfl (by decide),
   (Transaction.getAll_spec
      [⟨1, "expense", 25, "Cine", "Ocio", "2024-01-12", 5, 5⟩,
       ⟨2, "expense", 75, "Cena restaurante", "Alimentación", "2024-01-20", 6, 6⟩]
      { type := some "expense", limit := some 1 }).2.2.2.2 1 rfl (by decide)⟩
